import Mathlib

/-!
Verification of the QRScanner repository: a shallow embedding of the
WiFi QR payload construction, validation and parsing
(frontend/src/utils/qrGenerator.ts, qrScanner utilities), the QR-code
cache, the Express routes over QR-code records (backend/routes/qrcodes.js)
and the login-attempt methods of the user model (backend/models/User.js),
together with theorems settling the specification claims.

JavaScript strings are modelled as lists of characters, timestamps in
milliseconds as natural numbers, and the Mongoose collection as a list of
records in insertion order.
-/

set_option autoImplicit false

namespace QRScanner

/-- JavaScript strings modelled as lists of characters. -/
abbrev Str := List Char

/-- Coerce a Lean string literal to the character-list model. -/
def str (s : String) : Str := s.data

/-- The set of characters treated as whitespace by JavaScript's
String.prototype.trim and by the regex class backslash-s. -/
def isJsWhitespace (c : Char) : Bool :=
  c = ' ' || c = '\t' || c = '\n' || c = '\r' ||
  c.val = 11 || c.val = 12 || c.val = 0xA0 || c.val = 0xFEFF ||
  c.val = 0x1680 || (0x2000 ≤ c.val && c.val ≤ 0x200A) ||
  c.val = 0x2028 || c.val = 0x2029 || c.val = 0x202F ||
  c.val = 0x205F || c.val = 0x3000

/-- JavaScript String.prototype.trim: strip whitespace from both ends. -/
def jsTrim (s : Str) : Str :=
  ((s.dropWhile isJsWhitespace).reverse.dropWhile isJsWhitespace).reverse

/-- JavaScript global-flag String.prototype.replace of one character by a
fixed replacement string: every occurrence of `c` becomes `r`. -/
def replaceChar (c : Char) (r : Str) : Str → Str
  | [] => []
  | a :: as => (if a = c then r else [a]) ++ replaceChar c r as

/-- The WiFi configuration record (frontend/src/types/index.ts WiFiConfig;
the security field holds an arbitrary runtime string since
validateWiFiConfig checks it dynamically).  An absent or undefined
password is modelled as the empty string, matching how the code's
falsiness checks treat it. -/
structure WiFiConfig where
  ssid : Str
  password : Str
  security : Str
  hidden : Bool

/-- escapeWiFiString from createWiFiString (qrGenerator.ts): five
sequential global replaces — backslash to double backslash first, then a
backslash is put before each double quote, semicolon, comma and colon. -/
def escapeWiFiString (s : Str) : Str :=
  replaceChar ':' ['\\', ':']
    (replaceChar ',' ['\\', ',']
      (replaceChar ';' ['\\', ';']
        (replaceChar '"' ['\\', '"']
          (replaceChar '\\' ['\\', '\\'] s))))

/-- createWiFiString (qrGenerator.ts line 248): the template
WIFI:T:sec;S:ssid;P:password;H:hidden;; with escaping applied to ssid and
password, security defaulting to nopass when empty (JS falsy), and hidden
rendered as the string true or false. -/
def createWiFiString (c : WiFiConfig) : Str :=
  str "WIFI:T:" ++ (if c.security = [] then str "nopass" else c.security) ++
  str ";S:" ++ escapeWiFiString c.ssid ++
  str ";P:" ++ escapeWiFiString c.password ++
  str ";H:" ++ (if c.hidden then str "true" else str "false") ++
  str ";;"

/-- The escaping described by the specification, phase two: one pass that
puts a backslash before every double quote, semicolon, comma and colon. -/
def escSpecials : Str → Str
  | [] => []
  | a :: as =>
    (if a = '"' || a = ';' || a = ',' || a = ':' then ['\\', a] else [a]) ++
    escSpecials as

/-- The escaping described by the specification: first replace every
backslash by a double backslash, then prefix the four special characters. -/
def wifiEscSpec (s : Str) : Str :=
  escSpecials (replaceChar '\\' ['\\', '\\'] s)

theorem replaceChar_append (c : Char) (r : Str) (x y : Str) :
    replaceChar c r (x ++ y) = replaceChar c r x ++ replaceChar c r y := by
  induction x with
  | nil => rfl
  | cons a as ih => simp [replaceChar, ih]

theorem fourReplace_eq_escSpecials (l : Str) :
    replaceChar ':' ['\\', ':']
      (replaceChar ',' ['\\', ',']
        (replaceChar ';' ['\\', ';']
          (replaceChar '"' ['\\', '"'] l))) = escSpecials l := by
  induction l with
  | nil => rfl
  | cons a as ih =>
    by_cases h1 : a = '"'
    · subst h1; simp [replaceChar, escSpecials, replaceChar_append, ih]
    · by_cases h2 : a = ';'
      · subst h2; simp [replaceChar, escSpecials, replaceChar_append, ih]
      · by_cases h3 : a = ','
        · subst h3; simp [replaceChar, escSpecials, replaceChar_append, ih]
        · by_cases h4 : a = ':'
          · subst h4; simp [replaceChar, escSpecials, replaceChar_append, ih]
          · simp [replaceChar, escSpecials, replaceChar_append, ih, h1, h2, h3, h4]

theorem escapeWiFiString_eq_spec (s : Str) :
    escapeWiFiString s = wifiEscSpec s := by
  unfold escapeWiFiString wifiEscSpec
  exact fourReplace_eq_escSpecials _

/-- Claim C1: for every WiFi configuration, createWiFiString returns
exactly the fixed-format string WIFI:T:sec;S:esc(ssid);P:esc(password);H:h;;
where sec is the security field when non-empty and nopass otherwise, h is
true exactly when hidden is true and false otherwise, and esc first
replaces every backslash by a double backslash and then prefixes each
double quote, semicolon, comma and colon with a backslash. -/
theorem createWiFiString_format (c : WiFiConfig) :
    createWiFiString c =
      str "WIFI:T:" ++ (if c.security = [] then str "nopass" else c.security) ++
      str ";S:" ++ wifiEscSpec c.ssid ++
      str ";P:" ++ wifiEscSpec c.password ++
      str ";H:" ++ (if c.hidden then str "true" else str "false") ++
      str ";;" := by
  simp [createWiFiString, escapeWiFiString_eq_spec]

/-! ## WiFi configuration validation (qrGenerator.ts validateWiFiConfig) -/

/-- Result of validateWiFiConfig.  The capacityUsage percentage (a
floating-point ratio of the WiFi string length to the QR capacity) does
not influence validity and is not modelled. -/
structure ValidationResult where
  isValid : Bool
  errors : List Str
  warnings : List Str
  suggestions : List Str

/-- The validSecurityTypes array of validateWiFiConfig, including the
empty string. -/
def validSecurityTypes : List Str :=
  [str "WPA", str "WPA2", str "WPA3", str "WEP", str "nopass", str ""]

/-- The SSID branch of validateWiFiConfig: required/empty check, then the
32-character limit. -/
def wifiSsidErrors (c : WiFiConfig) : List Str :=
  if jsTrim c.ssid = [] then [str "WiFi SSID is required and cannot be empty"]
  else if c.ssid.length > 32 then [str "SSID cannot exceed 32 characters"]
  else []

/-- The security branch of validateWiFiConfig: a non-empty (truthy)
security string must belong to validSecurityTypes. -/
def wifiSecurityErrors (c : WiFiConfig) : List Str :=
  if c.security ≠ [] ∧ c.security ∉ validSecurityTypes then
    [str "Invalid security type. Use WPA, WPA2, WPA3, WEP, or nopass"]
  else []

/-- The condition of the first password branch: secured network with an
empty (falsy) password. -/
def wifiPwRequired (c : WiFiConfig) : Prop :=
  c.security ≠ [] ∧ c.security ≠ str "nopass" ∧ c.password = []

instance (c : WiFiConfig) : Decidable (wifiPwRequired c) := by
  unfold wifiPwRequired; infer_instance

/-- The password if-else chain of validateWiFiConfig: password required
for secured networks, otherwise the 63-character limit on a non-empty
password. -/
def wifiPasswordErrors (c : WiFiConfig) : List Str :=
  if wifiPwRequired c then [str "Password is required for secured networks"]
  else if c.password ≠ [] ∧ c.password.length > 63 then
    [str "Password cannot exceed 63 characters"]
  else []

/-- validateWiFiConfig (qrGenerator.ts line 189), following the source's
branch structure: the SSID trim/length checks, the security-type
membership check, the password required / too-long if-else chain, and the
accompanying warnings and suggestions. -/
def validateWiFiConfig (c : WiFiConfig) : ValidationResult :=
  let ssidWarnings : List Str :=
    if jsTrim c.ssid ≠ [] ∧ (';' ∈ c.ssid ∨ ':' ∈ c.ssid ∨ ',' ∈ c.ssid) then
      [str "SSID contains special characters that may cause issues"]
    else []
  let passwordWarnings : List Str :=
    if ¬ wifiPwRequired c ∧ c.password ≠ [] ∧
        (str "WPA").isPrefixOf c.security ∧ c.password.length < 8 then
      [str "WPA passwords should be at least 8 characters long"]
    else []
  let wepWarnings : List Str :=
    if c.security = str "WEP" then [str "WEP encryption is deprecated and insecure"] else []
  let wepSuggestions : List Str :=
    if c.security = str "WEP" then [str "Consider upgrading to WPA2 or WPA3 for better security"] else []
  let nopassWarnings : List Str :=
    if c.security = str "nopass" then [str "Open network without password poses security risks"] else []
  let nopassSuggestions : List Str :=
    if c.security = str "nopass" then [str "Consider adding password protection"] else []
  let errors := wifiSsidErrors c ++ wifiSecurityErrors c ++ wifiPasswordErrors c
  { isValid := errors = []
    errors := errors
    warnings := ssidWarnings ++ passwordWarnings ++ wepWarnings ++ nopassWarnings
    suggestions := wepSuggestions ++ nopassSuggestions }

theorem mem_of_mem_dropWhile {p : Char → Bool} {l : Str} {a : Char}
    (h : a ∈ l.dropWhile p) : a ∈ l := by
  induction l with
  | nil => exact absurd h (by simp)
  | cons b bs ih =>
    by_cases hb : p b
    · rw [List.dropWhile_cons_of_pos hb] at h
      exact List.mem_cons_of_mem _ (ih h)
    · rw [List.dropWhile_cons_of_neg hb] at h
      exact h

theorem jsTrim_eq_nil_iff (s : Str) :
    jsTrim s = [] ↔ ∀ a ∈ s, isJsWhitespace a := by
  unfold jsTrim
  rw [List.reverse_eq_nil_iff, List.dropWhile_eq_nil_iff]
  constructor
  · intro h a ha
    by_cases hws : isJsWhitespace a
    · exact hws
    · have hmem : a ∈ s.dropWhile isJsWhitespace := by
        have hsplit := List.takeWhile_append_dropWhile (p := isJsWhitespace) (l := s)
        rw [← hsplit] at ha
        rcases List.mem_append.mp ha with h1 | h1
        · exact absurd (List.mem_takeWhile_imp h1) (by simp [hws])
        · exact h1
      exact h a (List.mem_reverse.mpr hmem)
  · intro h a ha
    exact h a (mem_of_mem_dropWhile (List.mem_reverse.mp ha))

theorem wifiSsidErrors_eq_nil_iff (c : WiFiConfig) :
    wifiSsidErrors c = [] ↔
      ¬ (∀ a ∈ c.ssid, isJsWhitespace a) ∧ ¬ c.ssid.length > 32 := by
  unfold wifiSsidErrors
  rw [← jsTrim_eq_nil_iff]
  split_ifs with h1 h2 <;> simp_all [str]

theorem wifiSecurityErrors_eq_nil_iff (c : WiFiConfig) :
    wifiSecurityErrors c = [] ↔
      ¬ (c.security ≠ [] ∧
        c.security ∉ [str "WPA", str "WPA2", str "WPA3", str "WEP", str "nopass"]) := by
  unfold wifiSecurityErrors
  split_ifs with h <;> simp_all [validSecurityTypes, str]

theorem wifiPasswordErrors_eq_nil_iff (c : WiFiConfig) :
    wifiPasswordErrors c = [] ↔
      ¬ wifiPwRequired c ∧ ¬ (c.password ≠ [] ∧ c.password.length > 63) := by
  unfold wifiPasswordErrors
  split_ifs with h1 h2 <;> simp_all [str]

/-- Claim C3: validateWiFiConfig reports isValid = false exactly when the
SSID is empty or whitespace-only, or the SSID exceeds 32 characters, or
the security string is non-empty and outside the five recognised values,
or the security is non-empty, not nopass, and the password is empty, or
the password is non-empty and exceeds 63 characters; and isValid always
equals the emptiness of the errors list. -/
theorem validateWiFiConfig_spec (c : WiFiConfig) :
    ((validateWiFiConfig c).isValid = false ↔
      ((∀ a ∈ c.ssid, isJsWhitespace a) ∨
       c.ssid.length > 32 ∨
       (c.security ≠ [] ∧
         c.security ∉ [str "WPA", str "WPA2", str "WPA3", str "WEP", str "nopass"]) ∨
       (c.security ≠ [] ∧ c.security ≠ str "nopass" ∧ c.password = []) ∨
       (c.password ≠ [] ∧ c.password.length > 63))) ∧
    ((validateWiFiConfig c).isValid = true ↔ (validateWiFiConfig c).errors = []) := by
  have herr : (validateWiFiConfig c).errors =
      wifiSsidErrors c ++ wifiSecurityErrors c ++ wifiPasswordErrors c := rfl
  have hvalid : (validateWiFiConfig c).isValid =
      decide ((validateWiFiConfig c).errors = []) := rfl
  constructor
  · rw [hvalid, decide_eq_false_iff_not, herr]
    rw [List.append_eq_nil, List.append_eq_nil]
    rw [wifiSsidErrors_eq_nil_iff, wifiSecurityErrors_eq_nil_iff,
      wifiPasswordErrors_eq_nil_iff]
    unfold wifiPwRequired
    tauto
  · rw [hvalid]
    simp only [decide_eq_true_eq]

/-! ## WiFi QR parsing (scanner utilities, parseWiFiQR) -/

/-- Consume a literal at the front of a string: returns the remainder when
the string starts with the literal, and none otherwise. -/
def matchLit : Str → Str → Option Str
  | [], s => some s
  | _ :: _, [] => none
  | c :: cs, a :: as => if a = c then matchLit cs as else none

/-- The record returned by parseWiFiQR. -/
structure WiFiParse where
  security : Str
  ssid : Str
  password : Str
  hidden : Bool
  deriving DecidableEq

/-- Matching the parseWiFiQR regex WIFI:T:(g1);S:(g2);P:(g3);H:(g4); at
one fixed position.  Each group is a greedy run of non-semicolon
characters; since the character class excludes the semicolon and every
following literal starts with one, backtracking can never produce a
different split, so the match at a position is the maximal run followed
by the required literal. -/
def matchWiFiAt (s : Str) : Option (Str × Str × Str × Str) :=
  (matchLit (str "WIFI:T:") s).bind fun r0 =>
  (matchLit (str ";S:") (r0.dropWhile (· != ';'))).bind fun r2 =>
  (matchLit (str ";P:") (r2.dropWhile (· != ';'))).bind fun r4 =>
  (matchLit (str ";H:") (r4.dropWhile (· != ';'))).bind fun r6 =>
  (matchLit (str ";") (r6.dropWhile (· != ';'))).map fun _ =>
    (r0.takeWhile (· != ';'), r2.takeWhile (· != ';'),
     r4.takeWhile (· != ';'), r6.takeWhile (· != ';'))

/-- Unanchored regex search as performed by String.prototype.match: try
the pattern at every start position from left to right.  The pattern
begins with a literal, so it cannot match the empty suffix. -/
def findWiFiMatch : Str → Option (Str × Str × Str × Str)
  | [] => none
  | a :: as =>
    match matchWiFiAt (a :: as) with
    | some g => some g
    | none => findWiFiMatch as

/-- parseWiFiQR (scanner utilities): match the WiFi regex anywhere in the
content; an empty (falsy) security group falls back to WPA, and hidden is
the equality of the fourth group with the string true.  No unescaping is
performed on the captured groups. -/
def parseWiFiQR (s : Str) : Option WiFiParse :=
  match findWiFiMatch s with
  | none => none
  | some (g1, g2, g3, g4) =>
    some { security := if g1 = [] then str "WPA" else g1
           ssid := g2
           password := g3
           hidden := decide (g4 = str "true") }

/-- A configuration whose SSID contains a colon: createWiFiString escapes
the colon but parseWiFiQR never unescapes, so the round trip fails. -/
def roundTripCexConfig : WiFiConfig :=
  { ssid := str "a:b", password := str "12345678", security := str "WPA",
    hidden := false }

/-- Claim C2 counterexample: for the configuration with SSID a:b,
password 12345678, security WPA and hidden false, the parse of the
generated payload yields the still-escaped SSID, so it does not return a
record whose fields equal the input configuration. -/
theorem parseWiFi_roundTrip_cex :
    parseWiFiQR (createWiFiString roundTripCexConfig) =
      some { security := str "WPA", ssid := str "a\\:b",
             password := str "12345678", hidden := false } ∧
    parseWiFiQR (createWiFiString roundTripCexConfig) ≠
      some { security := roundTripCexConfig.security,
             ssid := roundTripCexConfig.ssid,
             password := roundTripCexConfig.password,
             hidden := roundTripCexConfig.hidden } := by
  constructor
  · decide
  · decide

/-- The characters altered by escapeWiFiString. -/
def wifiSpecialChars : List Char := ['\\', '"', ';', ',', ':']

theorem replaceChar_of_not_mem {c : Char} {r : Str} {s : Str} (h : c ∉ s) :
    replaceChar c r s = s := by
  induction s with
  | nil => rfl
  | cons a as ih =>
    rw [List.mem_cons, not_or] at h
    have hac : a ≠ c := fun hac => h.1 hac.symm
    simp [replaceChar, hac, ih h.2]

theorem escSpecials_id {s : Str}
    (h : ∀ a ∈ s, a ≠ '"' ∧ a ≠ ';' ∧ a ≠ ',' ∧ a ≠ ':') :
    escSpecials s = s := by
  induction s with
  | nil => rfl
  | cons a as ih =>
    have ha := h a (List.mem_cons_self a as)
    simp [escSpecials, ha.1, ha.2.1, ha.2.2.1, ha.2.2.2,
      ih fun b hb => h b (List.mem_cons_of_mem a hb)]

theorem escapeWiFiString_id {s : Str} (h : ∀ a ∈ s, a ∉ wifiSpecialChars) :
    escapeWiFiString s = s := by
  rw [escapeWiFiString_eq_spec]
  unfold wifiEscSpec
  have hbs : '\\' ∉ s := fun hmem =>
    (h '\\' hmem) (by simp [wifiSpecialChars])
  rw [replaceChar_of_not_mem hbs]
  refine escSpecials_id fun a ha => ?_
  have := h a ha
  simp [wifiSpecialChars] at this
  exact ⟨this.2.1, this.2.2.1, this.2.2.2.1, this.2.2.2.2⟩

theorem matchLit_append (l r : Str) : matchLit l (l ++ r) = some r := by
  induction l with
  | nil => rfl
  | cons c cs ih => simp [matchLit, ih]

theorem takeWhile_append_cons {α : Type} (p : α → Bool) (xs : List α)
    (y : α) (ys : List α) (h : ∀ a ∈ xs, p a = true) (hy : p y = false) :
    (xs ++ y :: ys).takeWhile p = xs := by
  induction xs with
  | nil => simp [List.takeWhile_cons, hy]
  | cons b bs ih =>
    have hb := h b (List.mem_cons_self b bs)
    simp [List.takeWhile_cons, hb,
      ih fun a ha => h a (List.mem_cons_of_mem b ha)]

theorem dropWhile_append_cons {α : Type} (p : α → Bool) (xs : List α)
    (y : α) (ys : List α) (h : ∀ a ∈ xs, p a = true) (hy : p y = false) :
    (xs ++ y :: ys).dropWhile p = y :: ys := by
  induction xs with
  | nil => simp [List.dropWhile_cons, hy]
  | cons b bs ih =>
    have hb := h b (List.mem_cons_self b bs)
    simp [List.dropWhile_cons, hb,
      ih fun a ha => h a (List.mem_cons_of_mem b ha)]

/-- The five recognised security values of the round-trip statement. -/
def knownSecurityValues : List Str :=
  [str "WPA", str "WPA2", str "WPA3", str "WEP", str "nopass"]

theorem matchWiFiAt_wellFormed (sec ssid pwd hid : Str)
    (hsec : ∀ a ∈ sec, (a != ';') = true)
    (hssid : ∀ a ∈ ssid, (a != ';') = true)
    (hpwd : ∀ a ∈ pwd, (a != ';') = true)
    (hhid : ∀ a ∈ hid, (a != ';') = true) :
    matchWiFiAt (str "WIFI:T:" ++ (sec ++ (';' :: 'S' :: ':' ::
      (ssid ++ (';' :: 'P' :: ':' ::
        (pwd ++ (';' :: 'H' :: ':' :: (hid ++ [';', ';'])))))))) =
      some (sec, ssid, pwd, hid) := by
  have hsemi : (';' != ';') = false := by decide
  have hm2 : matchLit (str ";S:") (';' :: 'S' :: ':' :: (ssid ++ (';' :: 'P' :: ':' ::
      (pwd ++ (';' :: 'H' :: ':' :: (hid ++ [';', ';'])))))) =
      some (ssid ++ (';' :: 'P' :: ':' ::
        (pwd ++ (';' :: 'H' :: ':' :: (hid ++ [';', ';']))))) :=
    matchLit_append (str ";S:") _
  have hm3 : matchLit (str ";P:") (';' :: 'P' :: ':' ::
      (pwd ++ (';' :: 'H' :: ':' :: (hid ++ [';', ';'])))) =
      some (pwd ++ (';' :: 'H' :: ':' :: (hid ++ [';', ';']))) :=
    matchLit_append (str ";P:") _
  have hm4 : matchLit (str ";H:") (';' :: 'H' :: ':' :: (hid ++ [';', ';'])) =
      some (hid ++ [';', ';']) :=
    matchLit_append (str ";H:") _
  have hm5 : matchLit (str ";") [';', ';'] = some [';'] := rfl
  unfold matchWiFiAt
  rw [matchLit_append, Option.some_bind]
  rw [dropWhile_append_cons _ sec ';' _ hsec hsemi]
  rw [hm2, Option.some_bind]
  rw [dropWhile_append_cons _ ssid ';' _ hssid hsemi]
  rw [hm3, Option.some_bind]
  rw [dropWhile_append_cons _ pwd ';' _ hpwd hsemi]
  rw [hm4, Option.some_bind]
  rw [dropWhile_append_cons _ hid ';' _ hhid hsemi]
  rw [hm5, Option.map_some']
  rw [takeWhile_append_cons _ sec ';' _ hsec hsemi]
  rw [takeWhile_append_cons _ ssid ';' _ hssid hsemi]
  rw [takeWhile_append_cons _ pwd ';' _ hpwd hsemi]
  rw [takeWhile_append_cons _ hid ';' _ hhid hsemi]

/-- Claim C2 (amended): for every WiFi configuration whose security field
is one of WPA, WPA2, WPA3, WEP or nopass and whose ssid and password
contain none of the escaped characters (backslash, double quote,
semicolon, comma, colon), parsing the generated payload round-trips:
parseWiFiQR returns a record whose security, ssid, password and hidden
fields equal those of the input configuration. -/
theorem parseWiFi_roundTrip (c : WiFiConfig)
    (hsec : c.security ∈ knownSecurityValues)
    (hssid : ∀ a ∈ c.ssid, a ∉ wifiSpecialChars)
    (hpwd : ∀ a ∈ c.password, a ∉ wifiSpecialChars) :
    parseWiFiQR (createWiFiString c) =
      some { security := c.security, ssid := c.ssid,
             password := c.password, hidden := c.hidden } := by
  have hsecne : c.security ≠ [] := by
    simp [knownSecurityValues] at hsec
    rcases hsec with h | h | h | h | h <;> rw [h] <;> decide
  have hsecsemi : ∀ a ∈ c.security, (a != ';') = true := by
    simp [knownSecurityValues] at hsec
    rcases hsec with h | h | h | h | h <;> rw [h] <;> decide
  have hssidsemi : ∀ a ∈ c.ssid, (a != ';') = true := fun a ha => by
    have := hssid a ha
    simp [wifiSpecialChars] at this
    simp [this.2.2.1]
  have hpwdsemi : ∀ a ∈ c.password, (a != ';') = true := fun a ha => by
    have := hpwd a ha
    simp [wifiSpecialChars] at this
    simp [this.2.2.1]
  have hhidsemi : ∀ a ∈ (if c.hidden then str "true" else str "false"),
      (a != ';') = true := by
    cases c.hidden <;> simp <;> decide
  have hs : createWiFiString c = str "WIFI:T:" ++ (c.security ++
      (';' :: 'S' :: ':' :: (c.ssid ++ (';' :: 'P' :: ':' ::
        (c.password ++ (';' :: 'H' :: ':' ::
          ((if c.hidden then str "true" else str "false") ++
            [';', ';']))))))) := by
    rw [createWiFiString, escapeWiFiString_id hssid, escapeWiFiString_id hpwd,
      if_neg hsecne]
    simp only [List.append_assoc]
    rfl
  have hmatch := matchWiFiAt_wellFormed c.security c.ssid c.password
    (if c.hidden then str "true" else str "false")
    hsecsemi hssidsemi hpwdsemi hhidsemi
  rw [← hs] at hmatch
  have hcons : createWiFiString c =
      'W' :: ('I' :: ('F' :: ('I' :: (':' :: ('T' :: (':' :: (c.security ++
      (';' :: 'S' :: ':' :: (c.ssid ++ (';' :: 'P' :: ':' ::
        (c.password ++ (';' :: 'H' :: ':' ::
          ((if c.hidden then str "true" else str "false") ++
            [';', ';']))))))))))))) := by
    rw [hs]; rfl
  have hfind : findWiFiMatch (createWiFiString c) =
      some (c.security, c.ssid, c.password,
        if c.hidden then str "true" else str "false") := by
    rw [hcons, findWiFiMatch]
    rw [← hcons, hmatch]
  rw [parseWiFiQR, hfind]
  simp only [if_neg hsecne]
  cases hh : c.hidden
  all_goals simp
  all_goals decide

/-- Witness for the amended round trip at a concrete configuration. -/
theorem parseWiFi_roundTrip_witness :
    parseWiFiQR (createWiFiString
      { ssid := str "HomeNet", password := str "hunter12",
        security := str "WPA2", hidden := true }) =
      some { security := str "WPA2", ssid := str "HomeNet",
             password := str "hunter12", hidden := true } :=
  parseWiFi_roundTrip
    { ssid := str "HomeNet", password := str "hunter12",
      security := str "WPA2", hidden := true }
    (by decide) (by decide) (by decide)

/-! ## QR code generation and the cache (qrGenerator.ts) -/

/-- Caller-supplied QROptions; every field is optional.  The color
sub-object is flattened into its two fields. -/
structure QROptions where
  width : Option Nat
  margin : Option Nat
  errorCorrectionLevel : Option Char
  darkColor : Option Str
  lightColor : Option Str
  deriving DecidableEq

/-- The effective options passed to QRCode.toDataURL after generateQRCode
applies its falsy-coalescing defaults. -/
structure QROptionsEff where
  width : Nat
  margin : Nat
  errorCorrectionLevel : Char
  darkColor : Str
  lightColor : Str
  deriving DecidableEq

/-- JavaScript x or-else d on an optional number: 0 is falsy. -/
def jsOrNat (o : Option Nat) (d : Nat) : Nat :=
  match o with
  | some w => if w = 0 then d else w
  | none => d

/-- JavaScript x or-else d on an optional string: the empty string is
falsy. -/
def jsOrStr (o : Option Str) (d : Str) : Str :=
  match o with
  | some s => if s = [] then d else s
  | none => d

/-- An entry of the QRCodeCache: the produced data-URL and the insertion
time in milliseconds (the stored metadata plays no role in the cache
logic and is folded into the result). -/
structure CacheEntry where
  result : Str
  timestamp : Nat
  deriving DecidableEq

/-- The cache key JSON.stringify of content and options, modelled as the
pair itself. -/
abbrev CacheKey := Str × QROptions

/-- The QRCodeCache Map in insertion order: JavaScript Map iteration
order is insertion order, updating an existing key keeps its position,
and keys().next().value is the first (oldest-inserted) key. -/
abbrev Cache := List (CacheKey × CacheEntry)

def cacheTTL : Nat := 5 * 60 * 1000

def cacheMaxSize : Nat := 100

/-- Map.prototype.get. -/
def mapGet (c : Cache) (k : CacheKey) : Option CacheEntry :=
  match c with
  | [] => none
  | (k0, e0) :: rest => if k0 = k then some e0 else mapGet rest k

/-- Map.prototype.delete (keys are unique in a Map, so removing the first
occurrence is exact). -/
def mapDelete (c : Cache) (k : CacheKey) : Cache :=
  match c with
  | [] => []
  | (k0, e0) :: rest => if k0 = k then rest else (k0, e0) :: mapDelete rest k

/-- Map.prototype.set: update in place when the key is present, keeping
its position; otherwise append at the end. -/
def mapSet (c : Cache) (k : CacheKey) (e : CacheEntry) : Cache :=
  match c with
  | [] => [(k, e)]
  | (k0, e0) :: rest =>
    if k0 = k then (k0, e) :: rest else (k0, e0) :: mapSet rest k e

/-- QRCodeCache.get (qrGenerator.ts line 104): a hit within the TTL
returns the stored result and leaves the cache untouched; otherwise the
key is deleted and null is returned. -/
def cacheGet (now : Nat) (c : Cache) (k : CacheKey) : Option Str × Cache :=
  match mapGet c k with
  | some e0 =>
    if now - e0.timestamp < cacheTTL then (some e0.result, c)
    else (none, mapDelete c k)
  | none => (none, mapDelete c k)

/-- Deleting the oldest-inserted key, keys().next().value: the first key
in iteration order; on an empty map this is undefined and the delete is a
no-op. -/
def cacheOldestDeleted (c : Cache) : Cache :=
  match c with
  | [] => []
  | (k0, _) :: _ => mapDelete c k0

/-- QRCodeCache.set (line 113): when the size is at or above the limit,
delete the oldest-inserted key first, then set. -/
def cacheSet (c : Cache) (k : CacheKey) (e : CacheEntry) : Cache :=
  mapSet (if c.length ≥ cacheMaxSize then cacheOldestDeleted c else c) k e

/-- The observable outcome of one generateQRCode call: an error with its
QRCodeError code, a cache hit, or an invocation of the QR library on the
given content and effective options producing the given data-URL. -/
inductive GenResult where
  | errored (code : Str)
  | cacheHit (result : Str)
  | rendered (content : Str) (opts : QROptionsEff) (url : Str)
  deriving DecidableEq

/-- generateQRCode (qrGenerator.ts line 136).  The external library
QRCode.toDataURL is a parameter so that the model can state when it is
invoked; its failure path produces the GENERATION_FAILED error.  Empty or
whitespace-only content errors with EMPTY_CONTENT before the cache is
consulted; a fresh cached entry is returned as a hit; otherwise the
library is invoked and its result inserted into the cache. -/
def qrEffOptions (o : QROptions) : QROptionsEff :=
  { width := jsOrNat o.width 300
    margin := jsOrNat o.margin 2
    errorCorrectionLevel := o.errorCorrectionLevel.getD 'M'
    darkColor := jsOrStr o.darkColor (str "#000000")
    lightColor := jsOrStr o.lightColor (str "#FFFFFF") }

def generateQRCode (render : Str → QROptionsEff → Except Str Str)
    (now : Nat) (content : Str) (o : QROptions) (cache : Cache) :
    GenResult × Cache :=
  if jsTrim content = [] then (.errored (str "EMPTY_CONTENT"), cache)
  else
    match cacheGet now cache (content, o) with
    | (some res, cache1) => (.cacheHit res, cache1)
    | (none, cache1) =>
      match render content (qrEffOptions o) with
      | .ok url =>
        (.rendered content (qrEffOptions o) url,
         cacheSet cache1 (content, o) ⟨url, now⟩)
      | .error _ => (.errored (str "GENERATION_FAILED"), cache1)

/-- The options literal built by generateWiFiQRCode: error correction M
and width 400, overridden by any fields present on the caller's options
(object spread with the caller's options last). -/
def wifiOptions (o : QROptions) : QROptions :=
  { width := some (o.width.getD 400)
    margin := o.margin
    errorCorrectionLevel := some (o.errorCorrectionLevel.getD 'M')
    darkColor := o.darkColor
    lightColor := o.lightColor }

/-- generateWiFiQRCode (qrGenerator.ts line 262): validate, then generate
for the created WiFi string with the WiFi option defaults.  A QRCodeError
thrown by generateQRCode is rethrown unchanged. -/
def generateWiFiQRCode (render : Str → QROptionsEff → Except Str Str)
    (now : Nat) (c : WiFiConfig) (o : QROptions) (cache : Cache) :
    GenResult × Cache :=
  if (validateWiFiConfig c).isValid = false then
    (.errored (str "INVALID_WIFI_CONFIG"), cache)
  else generateQRCode render now (createWiFiString c) (wifiOptions o) cache

theorem generateQRCode_error_codes
    (render : Str → QROptionsEff → Except Str Str) (now : Nat)
    (content : Str) (o : QROptions) (cache : Cache) (code : Str)
    (h : (generateQRCode render now content o cache).1 = .errored code) :
    code = str "EMPTY_CONTENT" ∨ code = str "GENERATION_FAILED" := by
  unfold generateQRCode at h
  by_cases h1 : jsTrim content = []
  · rw [if_pos h1] at h
    left
    exact ((GenResult.errored.injEq _ _).mp h).symm
  · rw [if_neg h1] at h
    rcases hc : cacheGet now cache (content, o) with ⟨res, cache1⟩
    rw [hc] at h
    cases res with
    | some r => exact absurd h (by simp)
    | none =>
      cases hr : render content (qrEffOptions o) with
      | ok url => rw [hr] at h; exact absurd h (by simp)
      | error msg =>
        rw [hr] at h
        right
        exact ((GenResult.errored.injEq _ _).mp h).symm

/-- Claim C4: generateWiFiQRCode fails with QRCodeError code
INVALID_WIFI_CONFIG exactly when validateWiFiConfig reports the
configuration invalid; on a valid configuration it delegates to
generateQRCode on exactly the string createWiFiString(config), with
error-correction level M and width 400 unless overridden by the caller's
options, every other caller option passing through unchanged. -/
theorem generateWiFiQRCode_spec
    (render : Str → QROptionsEff → Except Str Str) (now : Nat)
    (c : WiFiConfig) (o : QROptions) (cache : Cache) :
    ((generateWiFiQRCode render now c o cache).1 =
        .errored (str "INVALID_WIFI_CONFIG") ↔
      (validateWiFiConfig c).isValid = false) ∧
    ((validateWiFiConfig c).isValid = true →
      generateWiFiQRCode render now c o cache =
        generateQRCode render now (createWiFiString c) (wifiOptions o) cache ∧
      (wifiOptions o).errorCorrectionLevel =
        some (o.errorCorrectionLevel.getD 'M') ∧
      (wifiOptions o).width = some (o.width.getD 400) ∧
      (wifiOptions o).margin = o.margin ∧
      (wifiOptions o).darkColor = o.darkColor ∧
      (wifiOptions o).lightColor = o.lightColor) := by
  cases hv : (validateWiFiConfig c).isValid with
  | false =>
    constructor
    · rw [generateWiFiQRCode, if_pos hv]
      simp
    · intro hcontra
      exact absurd hcontra (by decide)
  | true =>
    have hne : ¬ (validateWiFiConfig c).isValid = false := by simp [hv]
    constructor
    · rw [generateWiFiQRCode, if_neg hne]
      constructor
      · intro herr
        rcases generateQRCode_error_codes render now (createWiFiString c)
          (wifiOptions o) cache _ herr with hcode | hcode <;>
            exact absurd hcode (by decide)
      · intro hfalse
        exact absurd hfalse (by decide)
    · intro _
      rw [generateWiFiQRCode, if_neg hne]
      exact ⟨rfl, rfl, rfl, rfl, rfl, rfl⟩

/-- Witness for claim C4 at a concrete valid configuration, a render stub
and the empty cache. -/
theorem generateWiFiQRCode_spec_witness :
    ((generateWiFiQRCode (fun _ _ => Except.ok (str "url")) 7
        { ssid := str "Net", password := str "secret12",
          security := str "WPA2", hidden := false }
        { width := none, margin := none, errorCorrectionLevel := none,
          darkColor := none, lightColor := none } []).1 =
      GenResult.errored (str "INVALID_WIFI_CONFIG") ↔
      (validateWiFiConfig
        { ssid := str "Net", password := str "secret12",
          security := str "WPA2", hidden := false }).isValid = false) :=
  (generateWiFiQRCode_spec (fun _ _ => Except.ok (str "url")) 7
    { ssid := str "Net", password := str "secret12",
      security := str "WPA2", hidden := false }
    { width := none, margin := none, errorCorrectionLevel := none,
      darkColor := none, lightColor := none } []).1

/-- Claim C8: for every content string that is empty or whitespace-only,
generateQRCode errors with code EMPTY_CONTENT for every choice of
options, leaves the cache unchanged, and never reaches the QR library:
the outcome is identical for every render function. -/
theorem generateQRCode_emptyContent
    (render render2 : Str → QROptionsEff → Except Str Str) (now : Nat)
    (content : Str) (o : QROptions) (cache : Cache)
    (h : ∀ a ∈ content, isJsWhitespace a) :
    generateQRCode render now content o cache =
      (.errored (str "EMPTY_CONTENT"), cache) ∧
    generateQRCode render now content o cache =
      generateQRCode render2 now content o cache := by
  have ht : jsTrim content = [] := (jsTrim_eq_nil_iff content).mpr h
  constructor
  · rw [generateQRCode, if_pos ht]
  · rw [generateQRCode, if_pos ht, generateQRCode, if_pos ht]

/-- Witness for claim C8: two spaces of content, two distinct render
stubs. -/
theorem generateQRCode_emptyContent_witness :
    generateQRCode (fun _ _ => Except.ok (str "a")) 3 (str "  ")
        { width := some 10, margin := none, errorCorrectionLevel := none,
          darkColor := none, lightColor := none } [] =
      (GenResult.errored (str "EMPTY_CONTENT"), []) :=
  (generateQRCode_emptyContent (fun _ _ => Except.ok (str "a"))
    (fun _ _ => Except.error (str "b")) 3 (str "  ")
    { width := some 10, margin := none, errorCorrectionLevel := none,
      darkColor := none, lightColor := none } [] (by decide)).1

theorem mapSet_length_le (c : Cache) (k : CacheKey) (e : CacheEntry) :
    (mapSet c k e).length ≤ c.length + 1 := by
  induction c with
  | nil => simp [mapSet]
  | cons p rest ih =>
    rcases p with ⟨k0, e0⟩
    by_cases hk : k0 = k
    · simp [mapSet, hk]
    · simp only [mapSet, if_neg hk, List.length_cons]
      omega

theorem cacheGet_of_none {c : Cache} {k : CacheKey} (now : Nat)
    (h : mapGet c k = none) :
    cacheGet now c k = (none, mapDelete c k) := by
  unfold cacheGet
  rw [h]

theorem cacheGet_of_some {c : Cache} {k : CacheKey} {e0 : CacheEntry}
    (now : Nat) (h : mapGet c k = some e0) :
    cacheGet now c k =
      if now - e0.timestamp < cacheTTL then (some e0.result, c)
      else (none, mapDelete c k) := by
  unfold cacheGet
  rw [h]

/-- Claim C9: starting from a cache within the 100-entry bound, set
preserves the bound, evicting the oldest-inserted (first) entry exactly
when the cache is full; get returns a stored result only when the entry
is younger than the 5-minute TTL (leaving the cache unchanged), and
otherwise deletes the key and returns null. -/
theorem qrCodeCache_spec (c : Cache) (k : CacheKey) (e : CacheEntry)
    (now : Nat) (hlen : c.length ≤ cacheMaxSize) :
    (cacheSet c k e).length ≤ cacheMaxSize ∧
    (c.length = cacheMaxSize → cacheSet c k e = mapSet c.tail k e) ∧
    (∀ r, (cacheGet now c k).1 = some r →
      ∃ e0, mapGet c k = some e0 ∧ e0.result = r ∧
        now - e0.timestamp < cacheTTL ∧ (cacheGet now c k).2 = c) ∧
    ((cacheGet now c k).1 = none → (cacheGet now c k).2 = mapDelete c k) := by
  refine ⟨?_, ?_, ?_, ?_⟩
  · unfold cacheSet
    by_cases hfull : c.length ≥ cacheMaxSize
    · rw [if_pos hfull]
      cases c with
      | nil => exact absurd hfull (by decide)
      | cons p rest =>
        rcases p with ⟨k0, e0⟩
        have hdel : cacheOldestDeleted ((k0, e0) :: rest) = rest := by
          simp [cacheOldestDeleted, mapDelete]
        rw [hdel]
        have h1 := mapSet_length_le rest k e
        have h2 : rest.length + 1 ≤ cacheMaxSize := by
          simpa using hlen
        omega
    · rw [if_neg hfull]
      have h1 := mapSet_length_le c k e
      omega
  · intro hc
    unfold cacheSet
    rw [if_pos (by omega)]
    cases c with
    | nil => exact absurd hc (by decide)
    | cons p rest =>
      rcases p with ⟨k0, e0⟩
      have hdel : cacheOldestDeleted ((k0, e0) :: rest) = rest := by
        simp [cacheOldestDeleted, mapDelete]
      rw [hdel]
      rfl
  · intro r hr
    cases hm : mapGet c k with
    | none =>
      rw [cacheGet_of_none now hm] at hr
      exact absurd hr (by simp)
    | some e0 =>
      rw [cacheGet_of_some now hm] at hr ⊢
      by_cases htl : now - e0.timestamp < cacheTTL
      · rw [if_pos htl] at hr ⊢
        exact ⟨e0, rfl, Option.some.inj hr, htl, rfl⟩
      · rw [if_neg htl] at hr
        exact absurd hr (by simp)
  · intro hr
    cases hm : mapGet c k with
    | none => rw [cacheGet_of_none now hm]
    | some e0 =>
      rw [cacheGet_of_some now hm] at hr ⊢
      by_cases htl : now - e0.timestamp < cacheTTL
      · rw [if_pos htl] at hr
        exact absurd hr (by simp)
      · rw [if_neg htl]

/-- Witness for claim C9 at a one-entry cache with a stale entry. -/
theorem qrCodeCache_spec_witness :
    (cacheSet [((str "c", QROptions.mk none none none none none),
        CacheEntry.mk (str "u") 0)]
      (str "c", QROptions.mk none none none none none)
      (CacheEntry.mk (str "v") 9)).length ≤ cacheMaxSize ∧
    (([((str "c", QROptions.mk none none none none none),
        CacheEntry.mk (str "u") 0)] : Cache).length = cacheMaxSize →
      cacheSet [((str "c", QROptions.mk none none none none none),
          CacheEntry.mk (str "u") 0)]
        (str "c", QROptions.mk none none none none none)
        (CacheEntry.mk (str "v") 9) =
      mapSet ([((str "c", QROptions.mk none none none none none),
          CacheEntry.mk (str "u") 0)] : Cache).tail
        (str "c", QROptions.mk none none none none none)
        (CacheEntry.mk (str "v") 9)) ∧
    (∀ r, (cacheGet 400000
        [((str "c", QROptions.mk none none none none none),
          CacheEntry.mk (str "u") 0)]
        (str "c", QROptions.mk none none none none none)).1 = some r →
      ∃ e0, mapGet [((str "c", QROptions.mk none none none none none),
          CacheEntry.mk (str "u") 0)]
          (str "c", QROptions.mk none none none none none) = some e0 ∧
        e0.result = r ∧ 400000 - e0.timestamp < cacheTTL ∧
        (cacheGet 400000
          [((str "c", QROptions.mk none none none none none),
            CacheEntry.mk (str "u") 0)]
          (str "c", QROptions.mk none none none none none)).2 =
          [((str "c", QROptions.mk none none none none none),
            CacheEntry.mk (str "u") 0)]) ∧
    ((cacheGet 400000
        [((str "c", QROptions.mk none none none none none),
          CacheEntry.mk (str "u") 0)]
        (str "c", QROptions.mk none none none none none)).1 = none →
      (cacheGet 400000
        [((str "c", QROptions.mk none none none none none),
          CacheEntry.mk (str "u") 0)]
        (str "c", QROptions.mk none none none none none)).2 =
      mapDelete [((str "c", QROptions.mk none none none none none),
          CacheEntry.mk (str "u") 0)]
        (str "c", QROptions.mk none none none none none)) :=
  qrCodeCache_spec
    [((str "c", QROptions.mk none none none none none),
      CacheEntry.mk (str "u") 0)]
    (str "c", QROptions.mk none none none none none)
    (CacheEntry.mk (str "v") 9) 400000 (by decide)

/-! ## QR content type detection (scanner utilities, detectQRType) and the
backend type enum (qrCodeSchema) -/

/-- The five content types detectQRType can return. -/
inductive QRType where
  | text
  | url
  | wifi
  | email
  | phone
  deriving DecidableEq

/-- A character admitted by the regex class excluding whitespace and the
at-sign. -/
def okEmailChar (c : Char) : Bool := !isJsWhitespace c && c != '@'

/-- The detectQRType email regex: one or more characters that are neither
whitespace nor at-signs, an at-sign, the same class again, a literal dot,
and the class once more, anchored on both sides.  A backtracking match
exists exactly when the string splits as a@rest with a non-empty and
class-valid, rest class-valid (the class admits dots), and rest holding a
dot that is neither its first nor its last character. -/
def matchesEmailRe (s : Str) : Bool :=
  match s.dropWhile (· != '@') with
  | [] => false
  | _ :: rest =>
    !(s.takeWhile (· != '@')).isEmpty &&
    (s.takeWhile (· != '@')).all okEmailChar &&
    rest.all okEmailChar &&
    (rest.drop 1).dropLast.contains '.'

/-- A character of the phone regex class: digit, whitespace, hyphen or
parenthesis. -/
def phoneClassChar (c : Char) : Bool :=
  c.isDigit || isJsWhitespace c || c = '-' || c = '(' || c = ')'

/-- The detectQRType phone regex: an optional leading plus sign followed
by one or more class characters, anchored.  The plus sign is not in the
class, so when present it must be consumed. -/
def matchesPhoneRe (s : Str) : Bool :=
  match s with
  | '+' :: rest => !rest.isEmpty && rest.all phoneClassChar
  | _ => !s.isEmpty && s.all phoneClassChar

/-- The case-insensitive anchored www-dot test of detectQRType. -/
def startsWithWwwDot (s : Str) : Bool :=
  match s with
  | c1 :: c2 :: c3 :: c4 :: _ =>
    (c1 = 'w' || c1 = 'W') && (c2 = 'w' || c2 = 'W') &&
    (c3 = 'w' || c3 = 'W') && c4 = '.'
  | _ => false

/-- detectQRType (scanner utilities line 28): wifi, then email, then
phone, then url, then text. -/
def detectQRType (s : Str) : QRType :=
  if (str "WIFI:").isPrefixOf s then .wifi
  else if (str "mailto:").isPrefixOf s || matchesEmailRe s then .email
  else if (str "tel:").isPrefixOf s || matchesPhoneRe s then .phone
  else if (str "http://").isPrefixOf s || (str "https://").isPrefixOf s ||
      startsWithWwwDot s then .url
  else .text

/-- The string stored for each detected type. -/
def qrTypeToStr : QRType → Str
  | .text => str "text"
  | .url => str "url"
  | .wifi => str "wifi"
  | .email => str "email"
  | .phone => str "phone"

/-- The backend qrCodeSchema type enum (Mongoose): the accepted values of
the type field. -/
def qrTypeEnum : List Str :=
  [str "text", str "url", str "wifi", str "email", str "phone"]

/-- Mongoose enum validation of the type field: membership in the enum. -/
def qrTypeEnumAccepts (s : Str) : Bool := decide (s ∈ qrTypeEnum)

theorem qrTypeEnumAccepts_iff (u : Str) :
    qrTypeEnumAccepts u = true ↔
      (u = str "text" ∨ u = str "url" ∨ u = str "wifi" ∨
       u = str "email" ∨ u = str "phone") := by
  simp [qrTypeEnumAccepts, qrTypeEnum]

/-- Claim C7: detectQRType is total with values among the five types,
with the precedence wifi-marker first, then email (mailto marker or email
pattern), then phone (tel marker or phone pattern), then url (http or
https marker, or a leading www-dot, ASCII case-insensitively per the
regex i flag), then text; and the backend schema enum accepts exactly the
same five type strings and rejects any other. -/
theorem detectQRType_spec (s u : Str) :
    (detectQRType s = QRType.wifi ↔ (str "WIFI:").isPrefixOf s = true) ∧
    (detectQRType s = QRType.email ↔
      ¬ (str "WIFI:").isPrefixOf s = true ∧
      ((str "mailto:").isPrefixOf s = true ∨ matchesEmailRe s = true)) ∧
    (detectQRType s = QRType.phone ↔
      ¬ (str "WIFI:").isPrefixOf s = true ∧
      ¬ ((str "mailto:").isPrefixOf s = true ∨ matchesEmailRe s = true) ∧
      ((str "tel:").isPrefixOf s = true ∨ matchesPhoneRe s = true)) ∧
    (detectQRType s = QRType.url ↔
      ¬ (str "WIFI:").isPrefixOf s = true ∧
      ¬ ((str "mailto:").isPrefixOf s = true ∨ matchesEmailRe s = true) ∧
      ¬ ((str "tel:").isPrefixOf s = true ∨ matchesPhoneRe s = true) ∧
      ((str "http://").isPrefixOf s = true ∨
       (str "https://").isPrefixOf s = true ∨ startsWithWwwDot s = true)) ∧
    (detectQRType s = QRType.text ↔
      ¬ (str "WIFI:").isPrefixOf s = true ∧
      ¬ ((str "mailto:").isPrefixOf s = true ∨ matchesEmailRe s = true) ∧
      ¬ ((str "tel:").isPrefixOf s = true ∨ matchesPhoneRe s = true) ∧
      ¬ ((str "http://").isPrefixOf s = true ∨
         (str "https://").isPrefixOf s = true ∨ startsWithWwwDot s = true)) ∧
    qrTypeEnumAccepts (qrTypeToStr (detectQRType s)) = true ∧
    (qrTypeEnumAccepts u = true ↔
      (u = str "text" ∨ u = str "url" ∨ u = str "wifi" ∨
       u = str "email" ∨ u = str "phone")) := by
  refine ⟨?_, ?_, ?_, ?_, ?_, ?_, qrTypeEnumAccepts_iff u⟩ <;>
    unfold detectQRType <;>
      split_ifs with h1 h2 h3 h4 <;>
        simp_all <;> tauto

/-! ## Backend QR-code routes (backend/routes/qrcodes.js) -/

/-- The metadata sub-document of a QR-code record. -/
structure QRMeta where
  scanCount : Nat
  lastScanned : Option Nat
  deviceInfo : Str
  deriving DecidableEq

/-- A stored QR-code record (backend qrCodeSchema); Mongo ObjectIds are
modelled as naturals and the type field is named qtype. -/
structure QRRecord where
  id : Nat
  userId : Nat
  qtype : Str
  title : Str
  content : Str
  qrCodeUrl : Str
  tags : List Str
  category : Str
  isScanned : Bool
  isFavorite : Bool
  metadata : QRMeta
  deriving DecidableEq

/-- The Mongo filter by _id and owner used by every single-record route. -/
def ownedBy (uid rid : Nat) (r : QRRecord) : Bool :=
  decide (r.id = rid ∧ r.userId = uid)

/-- QRCode.findOne on the id-and-owner filter: the first matching record
of the collection. -/
def findOneOwned (db : List QRRecord) (uid rid : Nat) : Option QRRecord :=
  db.find? (ownedBy uid rid)

/-- Replace the first record matching the filter by its updated version;
the rest of the collection is untouched (findOneAndUpdate). -/
def updateFirst (p : QRRecord → Bool) (f : QRRecord → QRRecord) :
    List QRRecord → List QRRecord
  | [] => []
  | r :: rs => if p r then f r :: rs else r :: updateFirst p f rs

/-- Remove the first record matching the filter (findOneAndDelete). -/
def deleteFirst (p : QRRecord → Bool) : List QRRecord → List QRRecord
  | [] => []
  | r :: rs => if p r then rs else r :: deleteFirst p rs

/-- GET /:id — status and response body. -/
def getQRCodeRoute (db : List QRRecord) (uid rid : Nat) :
    Nat × Option QRRecord :=
  match findOneOwned db uid rid with
  | some r => (200, some r)
  | none => (404, none)

/-- PUT /:id — findOneAndUpdate with new: true; the request body is
modelled as the update function applied to the matched record.  Returns
status, response body and the collection afterwards. -/
def updateQRCodeRoute (db : List QRRecord) (uid rid : Nat)
    (f : QRRecord → QRRecord) : Nat × Option QRRecord × List QRRecord :=
  match findOneOwned db uid rid with
  | some r => (200, some (f r), updateFirst (ownedBy uid rid) f db)
  | none => (404, none, db)

/-- DELETE /:id — findOneAndDelete.  Returns status and the collection
afterwards. -/
def deleteQRCodeRoute (db : List QRRecord) (uid rid : Nat) :
    Nat × List QRRecord :=
  match findOneOwned db uid rid with
  | some _ => (200, deleteFirst (ownedBy uid rid) db)
  | none => (404, db)

/-- The favorite toggle applied by PATCH /:id/favorite before save. -/
def toggleFav (r : QRRecord) : QRRecord :=
  { r with isFavorite := !r.isFavorite }

/-- PATCH /:id/favorite — findOne, negate isFavorite, save.  Returns
status, response body and the collection afterwards. -/
def toggleFavoriteRoute (db : List QRRecord) (uid rid : Nat) :
    Nat × Option QRRecord × List QRRecord :=
  match findOneOwned db uid rid with
  | some r => (200, some (toggleFav r), updateFirst (ownedBy uid rid) toggleFav db)
  | none => (404, none, db)

theorem updateFirst_keeps_nonmatching (p : QRRecord → Bool)
    (f : QRRecord → QRRecord) (db : List QRRecord) :
    ∀ r' ∈ db, p r' = false → r' ∈ updateFirst p f db := by
  induction db with
  | nil => intro r' h; exact absurd h (by simp)
  | cons a rest ih =>
    intro r' hmem hp
    rcases List.mem_cons.mp hmem with rfl | hmem2
    · rw [updateFirst, if_neg (by simp [hp])]
      exact List.mem_cons_self _ _
    · by_cases hpa : p a
      · rw [updateFirst, if_pos hpa]
        exact List.mem_cons_of_mem _ hmem2
      · rw [updateFirst, if_neg hpa]
        exact List.mem_cons_of_mem _ (ih r' hmem2 hp)

theorem deleteFirst_of_find (p : QRRecord → Bool) (db : List QRRecord)
    (r : QRRecord) (h : db.find? p = some r) :
    (deleteFirst p db).length + 1 = db.length ∧
    (∀ r' ∈ db, r' ≠ r → r' ∈ deleteFirst p db) := by
  induction db with
  | nil => exact absurd h (by simp)
  | cons a rest ih =>
    by_cases hpa : p a
    · rw [List.find?_cons_of_pos _ hpa] at h
      have hra : r = a := (Option.some.inj h).symm
      subst hra
      rw [deleteFirst, if_pos hpa]
      refine ⟨rfl, ?_⟩
      intro r' hmem hne
      rcases List.mem_cons.mp hmem with rfl | hmem2
      · exact absurd rfl hne
      · exact hmem2
    · rw [List.find?_cons_of_neg _ hpa] at h
      rw [deleteFirst, if_neg hpa]
      rcases ih h with ⟨hlen, hkeep⟩
      refine ⟨by simpa using hlen, ?_⟩
      intro r' hmem hne
      rcases List.mem_cons.mp hmem with rfl | hmem2
      · exact List.mem_cons_self _ _
      · exact List.mem_cons_of_mem _ (hkeep r' hmem2 hne)

theorem deleteFirst_not_mem (p : QRRecord → Bool) (db : List QRRecord)
    (r : QRRecord) (h : db.find? p = some r)
    (hnd : (db.map QRRecord.id).Nodup) : r ∉ deleteFirst p db := by
  induction db with
  | nil => exact absurd h (by simp)
  | cons a rest ih =>
    rw [List.map_cons, List.nodup_cons] at hnd
    by_cases hpa : p a
    · rw [List.find?_cons_of_pos _ hpa] at h
      have hra : r = a := (Option.some.inj h).symm
      subst hra
      rw [deleteFirst, if_pos hpa]
      intro hmem
      exact hnd.1 (List.mem_map_of_mem QRRecord.id hmem)
    · rw [List.find?_cons_of_neg _ hpa] at h
      rw [deleteFirst, if_neg hpa]
      intro hmem
      rcases List.mem_cons.mp hmem with rfl | hmem2
      · exact absurd (List.find?_some h) (by simp [hpa])
      · exact ih h hnd.2 hmem2

theorem find?_updateFirst (p : QRRecord → Bool) (f : QRRecord → QRRecord)
    (db : List QRRecord) (r : QRRecord) (h : db.find? p = some r)
    (hf : ∀ x, p x = true → p (f x) = true) :
    (updateFirst p f db).find? p = some (f r) := by
  induction db with
  | nil => exact absurd h (by simp)
  | cons a rest ih =>
    by_cases hpa : p a
    · rw [List.find?_cons_of_pos _ hpa] at h
      have hra : r = a := (Option.some.inj h).symm
      subst hra
      rw [updateFirst, if_pos hpa]
      exact List.find?_cons_of_pos _ (hf _ hpa)
    · rw [List.find?_cons_of_neg _ hpa] at h
      rw [updateFirst, if_neg hpa]
      rw [List.find?_cons_of_neg _ hpa]
      exact ih h

theorem getQRCodeRoute_of_none {db : List QRRecord} {uid rid : Nat}
    (h : findOneOwned db uid rid = none) :
    getQRCodeRoute db uid rid = (404, none) := by
  unfold getQRCodeRoute; rw [h]

theorem getQRCodeRoute_of_some {db : List QRRecord} {uid rid : Nat}
    {r : QRRecord} (h : findOneOwned db uid rid = some r) :
    getQRCodeRoute db uid rid = (200, some r) := by
  unfold getQRCodeRoute; rw [h]

theorem updateQRCodeRoute_of_none {db : List QRRecord} {uid rid : Nat}
    {f : QRRecord → QRRecord} (h : findOneOwned db uid rid = none) :
    updateQRCodeRoute db uid rid f = (404, none, db) := by
  unfold updateQRCodeRoute; rw [h]

theorem updateQRCodeRoute_of_some {db : List QRRecord} {uid rid : Nat}
    {f : QRRecord → QRRecord} {r : QRRecord}
    (h : findOneOwned db uid rid = some r) :
    updateQRCodeRoute db uid rid f =
      (200, some (f r), updateFirst (ownedBy uid rid) f db) := by
  unfold updateQRCodeRoute; rw [h]

theorem deleteQRCodeRoute_of_none {db : List QRRecord} {uid rid : Nat}
    (h : findOneOwned db uid rid = none) :
    deleteQRCodeRoute db uid rid = (404, db) := by
  unfold deleteQRCodeRoute; rw [h]

theorem deleteQRCodeRoute_of_some {db : List QRRecord} {uid rid : Nat}
    {r : QRRecord} (h : findOneOwned db uid rid = some r) :
    deleteQRCodeRoute db uid rid =
      (200, deleteFirst (ownedBy uid rid) db) := by
  unfold deleteQRCodeRoute; rw [h]

/-- Claim C5: each single-record route filters by both the record id and
the authenticated user's id; it answers 404 exactly when the user owns no
record with that id; a successful update returns the updated record and
rewrites only the matched record; a successful delete removes exactly
that one record. -/
theorem qrcodeIdRoutes_spec (db : List QRRecord) (uid rid : Nat)
    (f : QRRecord → QRRecord) (hnd : (db.map QRRecord.id).Nodup) :
    ((getQRCodeRoute db uid rid).1 = 404 ↔
      ∀ r ∈ db, ¬ (r.id = rid ∧ r.userId = uid)) ∧
    (∀ r, (getQRCodeRoute db uid rid).2 = some r →
      r ∈ db ∧ r.id = rid ∧ r.userId = uid) ∧
    ((updateQRCodeRoute db uid rid f).1 = 404 ↔
      ∀ r ∈ db, ¬ (r.id = rid ∧ r.userId = uid)) ∧
    ((updateQRCodeRoute db uid rid f).1 = 404 →
      (updateQRCodeRoute db uid rid f).2.2 = db) ∧
    (∀ r, findOneOwned db uid rid = some r →
      (updateQRCodeRoute db uid rid f).2.1 = some (f r) ∧
      (updateQRCodeRoute db uid rid f).2.2 =
        updateFirst (ownedBy uid rid) f db) ∧
    (∀ r' ∈ db, r'.userId ≠ uid →
      r' ∈ (updateQRCodeRoute db uid rid f).2.2) ∧
    ((deleteQRCodeRoute db uid rid).1 = 404 ↔
      ∀ r ∈ db, ¬ (r.id = rid ∧ r.userId = uid)) ∧
    ((deleteQRCodeRoute db uid rid).1 = 404 →
      (deleteQRCodeRoute db uid rid).2 = db) ∧
    (∀ r, findOneOwned db uid rid = some r →
      (deleteQRCodeRoute db uid rid).2.length + 1 = db.length ∧
      r ∉ (deleteQRCodeRoute db uid rid).2 ∧
      ∀ r' ∈ db, r' ≠ r → r' ∈ (deleteQRCodeRoute db uid rid).2) := by
  have h404 : findOneOwned db uid rid = none ↔
      ∀ r ∈ db, ¬ (r.id = rid ∧ r.userId = uid) := by
    unfold findOneOwned
    rw [List.find?_eq_none]
    constructor
    · intro h r hr hc
      exact h r hr (by simp [ownedBy, hc.1, hc.2])
    · intro h r hr hp
      exact h r hr (by simpa [ownedBy] using hp)
  refine ⟨?_, ?_, ?_, ?_, ?_, ?_, ?_, ?_, ?_⟩
  · constructor
    · intro hstat
      cases hfo : findOneOwned db uid rid with
      | none => exact h404.mp hfo
      | some r =>
        rw [getQRCodeRoute_of_some hfo] at hstat
        exact absurd hstat (by simp)
    · intro hall
      rw [getQRCodeRoute_of_none (h404.mpr hall)]
  · intro r hr
    cases hfo : findOneOwned db uid rid with
    | none =>
      rw [getQRCodeRoute_of_none hfo] at hr
      exact absurd hr (by simp)
    | some r0 =>
      rw [getQRCodeRoute_of_some hfo] at hr
      have hr2 := Option.some.inj hr
      subst hr2
      have hmem := List.mem_of_find?_eq_some hfo
      have hp := List.find?_some hfo
      simp [ownedBy] at hp
      exact ⟨hmem, hp.1, hp.2⟩
  · constructor
    · intro hstat
      cases hfo : findOneOwned db uid rid with
      | none => exact h404.mp hfo
      | some r =>
        rw [updateQRCodeRoute_of_some hfo] at hstat
        exact absurd hstat (by simp)
    · intro hall
      rw [updateQRCodeRoute_of_none (h404.mpr hall)]
  · intro h404h
    cases hfo : findOneOwned db uid rid with
    | none => rw [updateQRCodeRoute_of_none hfo]
    | some r =>
      rw [updateQRCodeRoute_of_some hfo] at h404h
      exact absurd h404h (by simp)
  · intro r hfo
    rw [updateQRCodeRoute_of_some hfo]
    exact ⟨rfl, rfl⟩
  · intro r' hmem huid
    cases hfo : findOneOwned db uid rid with
    | none => rw [updateQRCodeRoute_of_none hfo]; exact hmem
    | some r =>
      rw [updateQRCodeRoute_of_some hfo]
      refine updateFirst_keeps_nonmatching _ f db r' hmem ?_
      simp [ownedBy]
      intro _
      exact huid
  · constructor
    · intro hstat
      cases hfo : findOneOwned db uid rid with
      | none => exact h404.mp hfo
      | some r =>
        rw [deleteQRCodeRoute_of_some hfo] at hstat
        exact absurd hstat (by simp)
    · intro hall
      rw [deleteQRCodeRoute_of_none (h404.mpr hall)]
  · intro h404h
    cases hfo : findOneOwned db uid rid with
    | none => rw [deleteQRCodeRoute_of_none hfo]
    | some r =>
      rw [deleteQRCodeRoute_of_some hfo] at h404h
      exact absurd h404h (by simp)
  · intro r hfo
    rw [deleteQRCodeRoute_of_some hfo]
    rcases deleteFirst_of_find (ownedBy uid rid) db r hfo with ⟨hlen, hkeep⟩
    exact ⟨hlen, deleteFirst_not_mem _ db r hfo hnd, hkeep⟩

/-- Witness for claim C5 at a two-record collection. -/
theorem qrcodeIdRoutes_spec_witness :
    ((getQRCodeRoute
        [⟨1, 10, str "text", str "t", str "c", str "", [], str "general",
          false, false, ⟨0, none, str ""⟩⟩,
         ⟨2, 11, str "url", str "u", str "d", str "", [], str "general",
          false, true, ⟨0, none, str ""⟩⟩] 10 1).1 = 404 ↔
      ∀ r ∈ [⟨1, 10, str "text", str "t", str "c", str "", [], str "general",
          false, false, ⟨0, none, str ""⟩⟩,
         ⟨2, 11, str "url", str "u", str "d", str "", [], str "general",
          false, true, ⟨0, none, str ""⟩⟩],
        ¬ (QRRecord.id r = 1 ∧ QRRecord.userId r = 10)) :=
  (qrcodeIdRoutes_spec
    [⟨1, 10, str "text", str "t", str "c", str "", [], str "general",
      false, false, ⟨0, none, str ""⟩⟩,
     ⟨2, 11, str "url", str "u", str "d", str "", [], str "general",
      false, true, ⟨0, none, str ""⟩⟩] 10 1 id (by decide)).1

theorem toggleFavoriteRoute_of_some {db : List QRRecord} {uid rid : Nat}
    {r : QRRecord} (h : findOneOwned db uid rid = some r) :
    toggleFavoriteRoute db uid rid =
      (200, some (toggleFav r), updateFirst (ownedBy uid rid) toggleFav db) := by
  unfold toggleFavoriteRoute; rw [h]

theorem toggleFav_toggleFav (r : QRRecord) : toggleFav (toggleFav r) = r := by
  simp [toggleFav]

/-- Claim C10: on a record owned by the authenticated user, the
favorite-toggle route succeeds, returns the record with isFavorite
negated and every other stored field unchanged, and a second application
returns the original record. -/
theorem toggleFavoriteRoute_spec (db : List QRRecord) (uid rid : Nat)
    (r : QRRecord) (hfind : findOneOwned db uid rid = some r) :
    (toggleFavoriteRoute db uid rid).1 = 200 ∧
    (toggleFavoriteRoute db uid rid).2.1 = some (toggleFav r) ∧
    (toggleFav r).isFavorite = !r.isFavorite ∧
    (toggleFav r).id = r.id ∧
    (toggleFav r).userId = r.userId ∧
    (toggleFav r).qtype = r.qtype ∧
    (toggleFav r).title = r.title ∧
    (toggleFav r).content = r.content ∧
    (toggleFav r).qrCodeUrl = r.qrCodeUrl ∧
    (toggleFav r).tags = r.tags ∧
    (toggleFav r).category = r.category ∧
    (toggleFav r).isScanned = r.isScanned ∧
    (toggleFav r).metadata = r.metadata ∧
    (toggleFavoriteRoute (toggleFavoriteRoute db uid rid).2.2 uid rid).2.1 =
      some r := by
  have hpres : ∀ x, ownedBy uid rid x = true → ownedBy uid rid (toggleFav x) = true := by
    intro x hx
    simpa [ownedBy, toggleFav] using hx
  have hfind2 : findOneOwned (updateFirst (ownedBy uid rid) toggleFav db) uid rid =
      some (toggleFav r) :=
    find?_updateFirst (ownedBy uid rid) toggleFav db r hfind hpres
  rw [toggleFavoriteRoute_of_some hfind]
  refine ⟨rfl, rfl, rfl, rfl, rfl, rfl, rfl, rfl, rfl, rfl, rfl, rfl, rfl, ?_⟩
  rw [toggleFavoriteRoute_of_some hfind2, toggleFav_toggleFav]

/-- Witness for claim C10 at a one-record collection. -/
theorem toggleFavoriteRoute_spec_witness :
    (toggleFavoriteRoute
        [⟨5, 9, str "wifi", str "w", str "c", str "", [str "a"], str "general",
          true, false, ⟨2, some 7, str "dev"⟩⟩] 9 5).1 = 200 ∧
    (toggleFavoriteRoute
        [⟨5, 9, str "wifi", str "w", str "c", str "", [str "a"], str "general",
          true, false, ⟨2, some 7, str "dev"⟩⟩] 9 5).2.1 =
      some (toggleFav
        ⟨5, 9, str "wifi", str "w", str "c", str "", [str "a"], str "general",
          true, false, ⟨2, some 7, str "dev"⟩⟩) ∧
    (toggleFav
        ⟨5, 9, str "wifi", str "w", str "c", str "", [str "a"], str "general",
          true, false, ⟨2, some 7, str "dev"⟩⟩).isFavorite =
      !(QRRecord.isFavorite
        ⟨5, 9, str "wifi", str "w", str "c", str "", [str "a"], str "general",
          true, false, ⟨2, some 7, str "dev"⟩⟩) ∧
    (toggleFav
        ⟨5, 9, str "wifi", str "w", str "c", str "", [str "a"], str "general",
          true, false, ⟨2, some 7, str "dev"⟩⟩).id = 5 ∧
    (toggleFav
        ⟨5, 9, str "wifi", str "w", str "c", str "", [str "a"], str "general",
          true, false, ⟨2, some 7, str "dev"⟩⟩).userId = 9 ∧
    (toggleFav
        ⟨5, 9, str "wifi", str "w", str "c", str "", [str "a"], str "general",
          true, false, ⟨2, some 7, str "dev"⟩⟩).qtype = str "wifi" ∧
    (toggleFav
        ⟨5, 9, str "wifi", str "w", str "c", str "", [str "a"], str "general",
          true, false, ⟨2, some 7, str "dev"⟩⟩).title = str "w" ∧
    (toggleFav
        ⟨5, 9, str "wifi", str "w", str "c", str "", [str "a"], str "general",
          true, false, ⟨2, some 7, str "dev"⟩⟩).content = str "c" ∧
    (toggleFav
        ⟨5, 9, str "wifi", str "w", str "c", str "", [str "a"], str "general",
          true, false, ⟨2, some 7, str "dev"⟩⟩).qrCodeUrl = str "" ∧
    (toggleFav
        ⟨5, 9, str "wifi", str "w", str "c", str "", [str "a"], str "general",
          true, false, ⟨2, some 7, str "dev"⟩⟩).tags = [str "a"] ∧
    (toggleFav
        ⟨5, 9, str "wifi", str "w", str "c", str "", [str "a"], str "general",
          true, false, ⟨2, some 7, str "dev"⟩⟩).category = str "general" ∧
    (toggleFav
        ⟨5, 9, str "wifi", str "w", str "c", str "", [str "a"], str "general",
          true, false, ⟨2, some 7, str "dev"⟩⟩).isScanned = true ∧
    (toggleFav
        ⟨5, 9, str "wifi", str "w", str "c", str "", [str "a"], str "general",
          true, false, ⟨2, some 7, str "dev"⟩⟩).metadata = ⟨2, some 7, str "dev"⟩ ∧
    (toggleFavoriteRoute
        (toggleFavoriteRoute
          [⟨5, 9, str "wifi", str "w", str "c", str "", [str "a"], str "general",
            true, false, ⟨2, some 7, str "dev"⟩⟩] 9 5).2.2 9 5).2.1 =
      some ⟨5, 9, str "wifi", str "w", str "c", str "", [str "a"], str "general",
        true, false, ⟨2, some 7, str "dev"⟩⟩ :=
  toggleFavoriteRoute_spec
    [⟨5, 9, str "wifi", str "w", str "c", str "", [str "a"], str "general",
      true, false, ⟨2, some 7, str "dev"⟩⟩] 9 5
    ⟨5, 9, str "wifi", str "w", str "c", str "", [str "a"], str "general",
      true, false, ⟨2, some 7, str "dev"⟩⟩ (by decide)

/-! ## User login-attempt methods (backend/models/User.js) -/

/-- The loginAttempts sub-document of the user security object. -/
structure LoginAttempts where
  failed : Nat
  lastFailedAt : Option Nat
  lockoutUntil : Option Nat
  successfulLogins : Nat
  lastSuccessfulAt : Option Nat
  deriving DecidableEq

/-- The slice of the user document read and written by the login-attempt
methods: the status string and the optional loginAttempts object (the
code guards both with optional chaining). -/
structure UserRec where
  status : Str
  loginAttempts : Option LoginAttempts
  deriving DecidableEq

def lockoutDurationMs : Nat := 30 * 60 * 1000

def failedWindowMs : Nat := 2 * 60 * 60 * 1000

def maxFailedAttempts : Nat := 5

/-- The loginAttempts object carried into the body of an
incrementLoginAttempt step: the existing one with its counter reset to
zero when the previous failure is more than two hours old, or a fresh
zeroed object when absent (the code creates a bare counter; schema
defaults supply the zeros). -/
def carriedLA (now : Nat) (u : UserRec) : LoginAttempts :=
  match u.loginAttempts with
  | none =>
    { failed := 0, lastFailedAt := none, lockoutUntil := none,
      successfulLogins := 0, lastSuccessfulAt := none }
  | some la =>
    match la.lastFailedAt with
    | some t => if now - t > failedWindowMs then { la with failed := 0 } else la
    | none => la

/-- incrementLoginAttempt (User.js line 935): reset a stale counter,
record the failure, and lock the account for 30 minutes once the counter
reaches 5. -/
def incrementLoginAttempt (now : Nat) (u : UserRec) : UserRec :=
  if (carriedLA now u).failed + 1 ≥ maxFailedAttempts then
    { status := str "locked"
      loginAttempts := some
        { failed := (carriedLA now u).failed + 1
          lastFailedAt := some now
          lockoutUntil := some (now + lockoutDurationMs)
          successfulLogins := (carriedLA now u).successfulLogins
          lastSuccessfulAt := (carriedLA now u).lastSuccessfulAt } }
  else
    { u with
      loginAttempts := some
        { carriedLA now u with
          failed := (carriedLA now u).failed + 1
          lastFailedAt := some now } }

/-- resetLoginAttempts (User.js line 957): a user without a loginAttempts
object is returned unchanged; otherwise the counter is cleared, the
lockout removed, the success recorded, and a locked status restored to
active. -/
def resetLoginAttempts (now : Nat) (u : UserRec) : UserRec :=
  match u.loginAttempts with
  | none => u
  | some la =>
    { status := if u.status = str "locked" then str "active" else u.status
      loginAttempts := some
        { la with
          failed := 0
          lockoutUntil := none
          successfulLogins := la.successfulLogins + 1
          lastSuccessfulAt := some now } }

/-- isLocked (User.js line 972): a set lockoutUntil strictly in the
future (a missing security object or date is falsy). -/
def isLocked (now : Nat) (u : UserRec) : Bool :=
  match u.loginAttempts with
  | none => false
  | some la =>
    match la.lockoutUntil with
    | none => false
    | some t => decide (t > now)

theorem carriedLA_lockoutUntil (now : Nat) (u : UserRec) {l : Nat}
    (h : (carriedLA now u).lockoutUntil = some l) :
    ∃ la, u.loginAttempts = some la ∧ la.lockoutUntil = some l := by
  cases hla : u.loginAttempts with
  | none => simp [carriedLA, hla] at h
  | some la =>
    cases hlf : la.lastFailedAt with
    | none =>
      simp [carriedLA, hla, hlf] at h
      exact ⟨la, rfl, h⟩
    | some t =>
      by_cases hw : now - t > failedWindowMs
      · simp [carriedLA, hla, hlf, hw] at h
        exact ⟨la, rfl, h⟩
      · simp [carriedLA, hla, hlf, hw] at h
        exact ⟨la, rfl, h⟩

/-- Claim C6: after an incrementLoginAttempt step the account is locked
with lockoutUntil thirty minutes in the future exactly when the resulting
failed count reaches five, the count being carried over unless the
previous failure is more than two hours old; resetLoginAttempts zeroes
the counter, clears the lockout and reactivates a locked account; and
isLocked holds exactly when lockoutUntil is set and in the future.  The
hypothesis reflects reachability under the step relation with a monotone
clock: an already-present lockout deadline was set at an earlier failure
as that failure's time plus thirty minutes, hence lies strictly before
now plus thirty minutes. -/
theorem loginAttempts_spec (u : UserRec) (now : Nat)
    (hpast : ∀ la l, u.loginAttempts = some la →
      la.lockoutUntil = some l → l < now + lockoutDurationMs) :
    (∃ la1, (incrementLoginAttempt now u).loginAttempts = some la1 ∧
      la1.failed = (carriedLA now u).failed + 1 ∧
      la1.lastFailedAt = some now ∧
      (((incrementLoginAttempt now u).status = str "locked" ∧
          la1.lockoutUntil = some (now + lockoutDurationMs)) ↔
        la1.failed ≥ maxFailedAttempts)) ∧
    (∀ la, u.loginAttempts = some la →
      ∃ la2, (resetLoginAttempts now u).loginAttempts = some la2 ∧
        la2.failed = 0 ∧ la2.lockoutUntil = none ∧
        la2.successfulLogins = la.successfulLogins + 1 ∧
        (u.status = str "locked" →
          (resetLoginAttempts now u).status = str "active") ∧
        (u.status ≠ str "locked" →
          (resetLoginAttempts now u).status = u.status)) ∧
    (isLocked now u = true ↔
      ∃ la l, u.loginAttempts = some la ∧ la.lockoutUntil = some l ∧ l > now) := by
  refine ⟨?_, ?_, ?_⟩
  · by_cases hfive : (carriedLA now u).failed + 1 ≥ maxFailedAttempts
    · rw [incrementLoginAttempt, if_pos hfive]
      refine ⟨_, rfl, rfl, rfl, ?_⟩
      exact ⟨fun _ => hfive, fun _ => ⟨rfl, rfl⟩⟩
    · rw [incrementLoginAttempt, if_neg hfive]
      refine ⟨_, rfl, rfl, rfl, ?_⟩
      constructor
      · rintro ⟨hst, hlk⟩
        rcases carriedLA_lockoutUntil now u hlk with ⟨la, hla, hl⟩
        have := hpast la (now + lockoutDurationMs) hla hl
        omega
      · intro h5
        exact absurd h5 hfive
  · intro la hla
    refine ⟨{ la with
        failed := 0
        lockoutUntil := none
        successfulLogins := la.successfulLogins + 1
        lastSuccessfulAt := some now }, ?_, rfl, rfl, rfl, ?_, ?_⟩
    · simp [resetLoginAttempts, hla]
    · intro hlk
      simp [resetLoginAttempts, hla, hlk]
    · intro hne
      simp [resetLoginAttempts, hla, hne]
  · unfold isLocked
    cases hla : u.loginAttempts with
    | none => simp
    | some la =>
      cases hlk : la.lockoutUntil with
      | none => simp [hlk]
      | some t => simp [hlk]

/-- The concrete user of the C6 witness: four recent failures, active,
no lockout. -/
def sampleLockUser : UserRec :=
  { status := str "active"
    loginAttempts := some
      { failed := 4
        lastFailedAt := some 900000
        lockoutUntil := none
        successfulLogins := 2
        lastSuccessfulAt := some 100 } }

/-- Witness for claim C6: a user with four recent failures locks on the
fifth. -/
theorem loginAttempts_spec_witness :
    (∃ la1, (incrementLoginAttempt 1000000 sampleLockUser).loginAttempts = some la1 ∧
      la1.failed = (carriedLA 1000000 sampleLockUser).failed + 1 ∧
      la1.lastFailedAt = some 1000000 ∧
      (((incrementLoginAttempt 1000000 sampleLockUser).status = str "locked" ∧
          la1.lockoutUntil = some (1000000 + lockoutDurationMs)) ↔
        la1.failed ≥ maxFailedAttempts)) ∧
    (∀ la, sampleLockUser.loginAttempts = some la →
      ∃ la2, (resetLoginAttempts 1000000 sampleLockUser).loginAttempts = some la2 ∧
        la2.failed = 0 ∧ la2.lockoutUntil = none ∧
        la2.successfulLogins = la.successfulLogins + 1 ∧
        (sampleLockUser.status = str "locked" →
          (resetLoginAttempts 1000000 sampleLockUser).status = str "active") ∧
        (sampleLockUser.status ≠ str "locked" →
          (resetLoginAttempts 1000000 sampleLockUser).status = sampleLockUser.status)) ∧
    (isLocked 1000000 sampleLockUser = true ↔
      ∃ la l, sampleLockUser.loginAttempts = some la ∧
        la.lockoutUntil = some l ∧ l > 1000000) :=
  loginAttempts_spec sampleLockUser 1000000
    (by
      intro la l h1 h2
      have hlk : la.lockoutUntil = none := by
        rw [← Option.some.inj h1]
      rw [hlk] at h2
      exact absurd h2 (by simp))

end QRScanner
